import Mathlib

/-!
Verification of the order lifecycle engine of `src/viewsbot.py`.

The embedding models the module-level mutable state of the bot process
(`users_data`, `orders_data`, `order_timers`) as an explicit `BotState`
record, and the handler functions that mutate it as pure state
transformers.  External HTTP attempts are modelled by an environment
`Nat → ApiOutcome` giving the outcome of the n-th HTTP request issued
while a handler runs.  Wall-clock timestamps are abstracted to opaque
strings passed in as a `now` argument.
-/

namespace ViewsBot

/-- `API_RETRIES` constant of `viewsbot.py` (line 94). -/
def API_RETRIES : Nat := 3

/-- `API_RETRY_DELAY` constant of `viewsbot.py` (line 95), in seconds. -/
def API_RETRY_DELAY : Nat := 5

/-- `calculate_view_price` (viewsbot.py lines 906-915): 1 coin per view,
minimum 10 coins. -/
def calculate_view_price (quantity : Nat) : Nat :=
  max 10 quantity

/-- A user record of `users_data` (viewsbot.py `get_user`, lines 560-570).
Coins are carried as `Int` because Python integer arithmetic on the
`coins` field is unbounded and signed. -/
structure UserAccount where
  coins : Int
  username : String
  joinDate : String
deriving Repr, DecidableEq

/-- An order record as built in `handle_speed_selection`
(viewsbot.py lines 1124-1142), plus the cancellation fields written by
`cancel_order` (lines 2362-2364). -/
structure Order where
  id : String
  userId : String
  postLink : String
  quantity : Nat
  price : Nat
  delivery : String
  apiRuns : Option Nat
  apiInterval : Option Nat
  startDelay : Nat
  status : String
  createdAt : String
  apiOrderId : Option String
  apiResponse : Option String
  lastAttempt : Option String
  processingStarted : Option String
  error : Option String
  cancelledAt : Option String
  cancelledBy : Option String
deriving Repr, DecidableEq

/-- The module-level mutable state of the bot process: the `users_data`
dict (as an insertion-ordered association list), the `orders_data` list,
and the keys of the `order_timers` dict. -/
structure BotState where
  users : List (String × UserAccount)
  orders : List Order
  timers : List String
deriving Repr, DecidableEq

/-- A delivery schedule as computed by `handle_speed_selection`
(viewsbot.py lines 1051-1102): the `api_runs`, `api_interval` and
`start_delay` values stored on the order. -/
structure DeliveryPlan where
  apiRuns : Option Nat
  apiInterval : Option Nat
  startDelay : Nat
deriving Repr, DecidableEq

/-- Batch size of the `slow` option (viewsbot.py line 1064):
`max(100, min(quantity // 10, 1000))`. -/
def slow_batch_size (quantity : Nat) : Nat :=
  max 100 (min (quantity / 10) 1000)

/-- The `slow` delivery plan (viewsbot.py lines 1061-1068). -/
def slow_plan (quantity : Nat) : DeliveryPlan :=
  { apiRuns := some (max 1 (quantity / slow_batch_size quantity))
    apiInterval := some 30
    startDelay := 0 }

/-- A `drip_<delay>_<interval>_<batch>` delivery plan
(viewsbot.py lines 1070-1086). -/
def drip_plan (start_delay interval batch_size quantity : Nat) : DeliveryPlan :=
  { apiRuns := some (max 1 (quantity / batch_size))
    apiInterval := some interval
    startDelay := start_delay }

/-- The `speed_maximum` delivery plan (viewsbot.py lines 1056-1059):
no drip-feed parameters, no delay. -/
def maximum_plan : DeliveryPlan :=
  { apiRuns := none, apiInterval := none, startDelay := 0 }

/-- Spec-side clamp, following the spec wording
`clamp(quantity // 10, 100, 1000)`. -/
def clampSpec (x lo hi : Nat) : Nat :=
  max lo (min x hi)

/-! ### User store -/

/-- The fresh record created by `get_user` (viewsbot.py lines 563-569)
for a user id not yet in `users_data`. -/
def mkUser (now : String) : UserAccount :=
  { coins := 0, username := "", joinDate := now }

/-- `get_user` (viewsbot.py lines 560-570): look the id up in
`users_data`, creating a zero-coin record on first reference.  Returns
the record together with the (possibly extended) store. -/
def getUserL (users : List (String × UserAccount)) (uid now : String) :
    UserAccount × List (String × UserAccount) :=
  match users.lookup uid with
  | some u => (u, users)
  | none => (mkUser now, users ++ [(uid, mkUser now)])

/-- `update_user` (viewsbot.py lines 572-576): dict assignment
`users_data[user_id] = data` — replace the existing binding, or append
a new one in insertion order. -/
def setUser (users : List (String × UserAccount)) (uid : String) (u : UserAccount) :
    List (String × UserAccount) :=
  match users with
  | [] => [(uid, u)]
  | (k, v) :: rest =>
    if k = uid then (k, u) :: rest else (k, v) :: setUser rest uid u

/-- The `for i, o in enumerate(orders_data): if o["id"] == order_id:
... break` idiom used throughout viewsbot.py: update the first order
with the given id, leave the rest untouched. -/
def updateFirst (l : List Order) (orderId : String) (f : Order → Order) : List Order :=
  match l with
  | [] => []
  | o :: rest =>
    if o.id = orderId then f o :: rest else o :: updateFirst rest orderId f

/-! ### Order creation (`handle_speed_selection`, viewsbot.py lines 1104-1187) -/

/-- The transient session data (`temp_quantity`, `temp_price`,
`temp_post_link`, `temp_delivery`, and the computed plan) that
`handle_speed_selection` reads when the user confirms. -/
structure Quote where
  quantity : Nat
  price : Nat
  postLink : String
  delivery : String
  plan : DeliveryPlan
deriving Repr, DecidableEq

/-- The order record built at viewsbot.py lines 1124-1142. -/
def mkOrder (orderId uid : String) (q : Quote) (now : String) : Order :=
  { id := orderId, userId := uid, postLink := q.postLink, quantity := q.quantity
    price := q.price, delivery := q.delivery, apiRuns := q.plan.apiRuns
    apiInterval := q.plan.apiInterval, startDelay := q.plan.startDelay
    status := "pending", createdAt := now, apiOrderId := none, apiResponse := none
    lastAttempt := none, processingStarted := none, error := none
    cancelledAt := none, cancelledBy := none }

inductive CreateResult where
  | insufficient (needed : Nat) (balance : Int)
  | created (orderId : String)
deriving Repr, DecidableEq

/-- Lines 1104-1150 of `handle_speed_selection`: balance check, debit,
and append of the new `pending` order.  (Dispatch / timer arming,
lines 1170-1179, is modelled separately by
`handle_speed_selection_confirm`.) -/
def confirm_order (s : BotState) (callerId : String) (q : Quote) (orderId now : String) :
    BotState × CreateResult :=
  let gu := getUserL s.users callerId now
  if gu.1.coins < (q.price : Int) then
    ({ s with users := gu.2 }, .insufficient q.price gu.1.coins)
  else
    let order := mkOrder orderId callerId q now
    let users := setUser gu.2 callerId { gu.1 with coins := gu.1.coins - (q.price : Int) }
    ({ users := users, orders := s.orders ++ [order], timers := s.timers },
     .created orderId)

/-! ### Cancellation -/

inductive CancelResult where
  | cancelled (refund : Nat)
  | notFound
  | notOwner
  | wrongStatus (st : String)
deriving Repr, DecidableEq

/-- `cancel_order` (viewsbot.py lines 2328-2386), the `/cancel_<id>`
command path: ownership check, pending check, timer disarm, status
update with cancellation stamps, then refund of `order["price"]` to the
caller. -/
def cancel_order (s : BotState) (callerId orderId now : String) :
    BotState × CancelResult :=
  match s.orders.find? (fun o => o.id == orderId) with
  | none => (s, .notFound)
  | some order =>
    if callerId ≠ order.userId then (s, .notOwner)
    else if order.status ≠ "pending" then (s, .wrongStatus order.status)
    else
      let timers := s.timers.filter (fun t => t != orderId)
      let orders := updateFirst s.orders orderId (fun o =>
        { o with status := "cancelled", cancelledAt := some now,
                 cancelledBy := some callerId })
      let gu := getUserL s.users callerId now
      let users := setUser gu.2 callerId
        { gu.1 with coins := gu.1.coins + (order.price : Int) }
      ({ users := users, orders := orders, timers := timers }, .cancelled order.price)

/-- `cancel_order_callback` (viewsbot.py lines 2432-2494), the inline
button path: same guards; mutates the found order's status in place
(no cancellation stamps), refunds, then disarms the timer. -/
def cancel_order_callback (s : BotState) (callerId orderId now : String) :
    BotState × CancelResult :=
  match s.orders.find? (fun o => o.id == orderId) with
  | none => (s, .notFound)
  | some order =>
    if callerId ≠ order.userId then (s, .notOwner)
    else if order.status ≠ "pending" then (s, .wrongStatus order.status)
    else
      let orders := updateFirst s.orders orderId (fun o => { o with status := "cancelled" })
      let gu := getUserL s.users callerId now
      let users := setUser gu.2 callerId
        { gu.1 with coins := gu.1.coins + (order.price : Int) }
      let timers := s.timers.filter (fun t => t != orderId)
      ({ users := users, orders := orders, timers := timers }, .cancelled order.price)

/-! ### Admin coin grant -/

inductive GrantResult where
  | rejected
  | granted (amount : Int)
deriving Repr, DecidableEq

/-- The validated core of `admin_add_coins_to_user` (viewsbot.py lines
1780-1814): a non-positive amount is re-prompted (no state change); a
positive amount is added unconditionally. -/
def admin_add_coins_to_user (s : BotState) (targetId : String) (coins : Int) (now : String) :
    BotState × GrantResult :=
  if coins ≤ 0 then (s, .rejected)
  else
    let gu := getUserL s.users targetId now
    ({ s with users := setUser gu.2 targetId { gu.1 with coins := gu.1.coins + coins } },
     .granted coins)

/-! ### External submission (`send_view_order_to_api`, viewsbot.py lines 1371-1437) -/

/-- Outcome of one HTTP attempt against the external API, as
distinguished by `send_view_order_to_api`: a decoded payload containing
an `order` field; a decoded payload without one (optionally carrying an
`error` field); a `requests` timeout; a connection error; or any other
exception with its `str(e)` text. -/
inductive ApiOutcome where
  | success (orderId : String)
  | apiError (msg : Option String)
  | timeout
  | connError
  | exn (msg : String)
deriving Repr, DecidableEq

/-- `response_data.get('error', 'Unknown API error')`
(viewsbot.py line 1405). -/
def api_error_text : Option String → String
  | some m => m
  | none => "Unknown API error"

/-- The `for attempt in range(API_RETRIES)` loop of
`send_view_order_to_api` (viewsbot.py lines 1375-1437), with the fuel
counting remaining attempts.  `env` gives the outcome of the n-th HTTP
request of the enclosing handler; `idx` is the index of the next
request.  Returns ((success flag, external order id or error text),
HTTP attempts made, 5-second sleeps taken). -/
def send_loop (env : Nat → ApiOutcome) : Nat → Nat → Nat → Nat → (Bool × String) × Nat × Nat
  | 0, _, attempts, sleeps =>
    -- line 1437, reachable only if every branch of the last attempt fell
    -- through (they do not)
    ((false, "All retry attempts failed"), attempts, sleeps)
  | remaining + 1, idx, attempts, sleeps =>
    match env idx with
    | .success oid => ((true, oid), attempts + 1, sleeps)
    | .apiError m =>
      if remaining > 0 then send_loop env remaining (idx + 1) (attempts + 1) (sleeps + 1)
      else ((false, api_error_text m), attempts + 1, sleeps)
    | .timeout =>
      if remaining > 0 then send_loop env remaining (idx + 1) (attempts + 1) (sleeps + 1)
      else ((false, "API request timed out after multiple attempts"), attempts + 1, sleeps)
    | .connError =>
      if remaining > 0 then send_loop env remaining (idx + 1) (attempts + 1) (sleeps + 1)
      else ((false, "Connection error after multiple attempts"), attempts + 1, sleeps)
    | .exn m =>
      if remaining > 0 then send_loop env remaining (idx + 1) (attempts + 1) (sleeps + 1)
      else ((false, m), attempts + 1, sleeps)

/-- `send_view_order_to_api` (viewsbot.py lines 1371-1437). -/
def send_view_order_to_api (env : Nat → ApiOutcome) (idx : Nat) :
    (Bool × String) × Nat × Nat :=
  send_loop env API_RETRIES idx 0 0

/-- `max_retries` of `process_order_to_api` / `process_delayed_order`
(viewsbot.py lines 1222, 1310). -/
def max_retries : Nat := 3

/-- The `for attempt in range(max_retries)` loop shared by
`process_order_to_api` (lines 1313-1357) and `process_delayed_order`
(lines 1225-1268): each iteration calls `send_view_order_to_api` once
and either returns its success, sleeps 5 seconds and retries, or
returns the final failure text.  The fuel-0 case is unreachable from
`max_retries` because the last iteration always returns. -/
def process_retry (env : Nat → ApiOutcome) : Nat → Nat → Nat → Nat → (Bool × String) × Nat × Nat
  | 0, _, attempts, sleeps => ((false, "All retry attempts failed"), attempts, sleeps)
  | remaining + 1, idx, attempts, sleeps =>
    let r := send_view_order_to_api env idx
    if r.1.1 then ((true, r.1.2), attempts + r.2.1, sleeps + r.2.2)
    else if remaining > 0 then
      process_retry env remaining (idx + r.2.1) (attempts + r.2.1) (sleeps + r.2.2 + 1)
    else ((false, r.1.2), attempts + r.2.1, sleeps + r.2.2)

/-- The status update applied when `process_order_to_api` starts work
(viewsbot.py lines 1301-1306). -/
def markProcessing (now : String) (x : Order) : Order :=
  { x with status := "processing", processingStarted := some now, lastAttempt := some now }

/-- The status update applied when `process_delayed_order` starts work
(viewsbot.py lines 1214-1218): no `last_attempt` stamp. -/
def markProcessingDelayed (now : String) (x : Order) : Order :=
  { x with status := "processing", processingStarted := some now }

/-- The update applied on a successful submission (viewsbot.py lines
1321-1324): record the external id, keep status `processing`. -/
def markSubmitted (ext now : String) (x : Order) : Order :=
  { x with apiOrderId := some ext, status := "processing", apiResponse := some ext,
           lastAttempt := some now }

/-- The update applied when all retries are exhausted (viewsbot.py
lines 1334-1336): status `failed`, error text recorded. -/
def markFailed (err now : String) (x : Order) : Order :=
  { x with status := "failed", error := some err, lastAttempt := some now }

inductive DispatchResult where
  | notFound
  | notPending (st : String)
  | submitted (externalId : String)
  | failed (err : String)
deriving Repr, DecidableEq

/-- `process_order_to_api` (viewsbot.py lines 1282-1368): immediate
dispatch.  Returns the new state, the outcome, the number of HTTP
attempts made and the number of 5-second sleeps taken. -/
def process_order_to_api (s : BotState) (orderId : String) (env : Nat → ApiOutcome)
    (now : String) : BotState × DispatchResult × Nat × Nat :=
  match s.orders.find? (fun o => o.id == orderId) with
  | none => (s, .notFound, 0, 0)
  | some order =>
    if order.status ≠ "pending" then (s, .notPending order.status, 0, 0)
    else
      let orders1 := updateFirst s.orders orderId (markProcessing now)
      let r := process_retry env max_retries 0 0 0
      if r.1.1 then
        ({ s with orders := updateFirst orders1 orderId (markSubmitted r.1.2 now) },
         .submitted r.1.2, r.2.1, r.2.2)
      else
        ({ s with orders := updateFirst orders1 orderId (markFailed r.1.2 now) },
         .failed r.1.2, r.2.1, r.2.2)

/-- `process_delayed_order` (viewsbot.py lines 1196-1279): the timer
callback for drip orders.  Identical to `process_order_to_api` except
that the initial `processing` update does not stamp `last_attempt`
(line 1217). -/
def process_delayed_order (s : BotState) (orderId : String) (env : Nat → ApiOutcome)
    (now : String) : BotState × DispatchResult × Nat × Nat :=
  match s.orders.find? (fun o => o.id == orderId) with
  | none => (s, .notFound, 0, 0)
  | some order =>
    if order.status ≠ "pending" then (s, .notPending order.status, 0, 0)
    else
      let orders1 := updateFirst s.orders orderId (markProcessingDelayed now)
      let r := process_retry env max_retries 0 0 0
      if r.1.1 then
        ({ s with orders := updateFirst orders1 orderId (markSubmitted r.1.2 now) },
         .submitted r.1.2, r.2.1, r.2.2)
      else
        ({ s with orders := updateFirst orders1 orderId (markFailed r.1.2 now) },
         .failed r.1.2, r.2.1, r.2.2)

/-- `handle_speed_selection` end to end (viewsbot.py lines 1104-1187):
balance check and order creation, then either arm a deferred timer
(`start_delay > 0`, lines 1171-1176) or dispatch immediately
(line 1179). -/
def handle_speed_selection_confirm (s : BotState) (callerId : String) (q : Quote)
    (orderId now : String) (env : Nat → ApiOutcome) : BotState × CreateResult :=
  let r := confirm_order s callerId q orderId now
  match r.2 with
  | .insufficient n b => (r.1, .insufficient n b)
  | .created oid =>
    if q.plan.startDelay > 0 then
      ({ r.1 with timers := r.1.timers ++ [orderId] }, .created oid)
    else
      ((process_order_to_api r.1 orderId env now).1, .created oid)

/-! ### Operation language for the balance invariant -/

/-- One inbound event that can mutate user balances or orders: order
confirmation (with or without its dispatch tail), either cancellation
path, an admin grant, or a dispatch trigger. -/
inductive Op where
  | confirm (uid : String) (q : Quote) (orderId now : String)
  | speedConfirm (uid : String) (q : Quote) (orderId now : String) (env : Nat → ApiOutcome)
  | cancelCmd (uid orderId now : String)
  | cancelCb (uid orderId now : String)
  | grant (uid : String) (amount : Int) (now : String)
  | dispatch (orderId now : String) (env : Nat → ApiOutcome)
  | dispatchDelayed (orderId now : String) (env : Nat → ApiOutcome)

/-- Apply one event to the bot state. -/
def applyOp (s : BotState) : Op → BotState
  | .confirm uid q oid now => (confirm_order s uid q oid now).1
  | .speedConfirm uid q oid now env => (handle_speed_selection_confirm s uid q oid now env).1
  | .cancelCmd uid oid now => (cancel_order s uid oid now).1
  | .cancelCb uid oid now => (cancel_order_callback s uid oid now).1
  | .grant uid amt now => (admin_add_coins_to_user s uid amt now).1
  | .dispatch oid now env => (process_order_to_api s oid env now).1
  | .dispatchDelayed oid now env => (process_delayed_order s oid env now).1

/-- Apply a sequence of events. -/
def applyOps (s : BotState) (ops : List Op) : BotState :=
  ops.foldl applyOp s

/-- Every stored user balance is non-negative. -/
def UsersNonneg (s : BotState) : Prop :=
  ∀ p ∈ s.users, 0 ≤ p.2.coins

instance usersNonnegDecidable (s : BotState) : Decidable (UsersNonneg s) :=
  inferInstanceAs (Decidable (∀ p ∈ s.users, 0 ≤ p.2.coins))

/-- The process starts with empty in-memory stores (`init_data` on a
fresh deployment). -/
def initialState : BotState :=
  { users := [], orders := [], timers := [] }

/-- Whether an HTTP attempt outcome is the success shape (decoded
payload contains an `order` field). -/
def isSuccess : ApiOutcome → Bool
  | .success _ => true
  | _ => false

/-- Whether an HTTP attempt outcome is a transport-level failure
(timeout, connection error, or any other exception), as opposed to a
decoded API payload. -/
def isTransportFailure : ApiOutcome → Bool
  | .timeout => true
  | .connError => true
  | .exn _ => true
  | _ => false

/-- The error string `send_view_order_to_api` reports when its final
attempt has this outcome: the API-reported error string or the
exception text verbatim, but fixed generic messages for timeouts and
connection errors (viewsbot.py lines 1411, 1419, 1427, 1435). -/
def attempt_error_text : ApiOutcome → String
  | .success oid => oid
  | .apiError m => api_error_text m
  | .timeout => "API request timed out after multiple attempts"
  | .connError => "Connection error after multiple attempts"
  | .exn m => m

/-! ### Concrete fixtures used by the witnesses and counterexamples -/

def wQuote : Quote :=
  { quantity := 500, price := 500, postLink := "https://t.me/chan/42",
    delivery := "maximum", plan := maximum_plan }

def wUser : UserAccount :=
  { coins := 1000, username := "alice", joinDate := "2024-01-01 00:00:00" }

def wOrder : Order := mkOrder "ORD_W1" "U1" wQuote "t0"

def wState : BotState :=
  { users := [("U1", wUser)], orders := [wOrder], timers := [] }

/-- A quote whose price exceeds the fixture user's balance. -/
def wQuoteBig : Quote :=
  { quantity := 2000, price := 2000, postLink := "https://t.me/chan/43",
    delivery := "maximum", plan := maximum_plan }

/-- A completed (hence non-cancellable, non-dispatchable) order. -/
def wOrderDone : Order :=
  { wOrder with id := "ORD_W3", status := "completed" }

/-- A state holding only the completed order. -/
def wStateDone : BotState :=
  { users := [("U1", wUser)], orders := [wOrderDone], timers := [] }

/-! ### Helper lemmas on the store operations -/

theorem lookup_mem {β : Type} : ∀ {l : List (String × β)} {a : String} {b : β},
    l.lookup a = some b → (a, b) ∈ l := by
  intro l
  induction l with
  | nil => intro a b h; simp [List.lookup] at h
  | cons p rest ih =>
    intro a b h
    obtain ⟨k, v⟩ := p
    rw [List.lookup] at h
    by_cases hk : a == k
    · rw [hk] at h
      simp only [Option.some.injEq] at h
      subst h
      have hke : a = k := beq_iff_eq.mp hk
      subst hke
      exact List.mem_cons_self _ _
    · rw [Bool.not_eq_true] at hk
      rw [hk] at h
      exact List.mem_cons_of_mem _ (ih h)

theorem getUserL_of_lookup {l : List (String × UserAccount)} {uid : String}
    {u : UserAccount} (now : String) (h : l.lookup uid = some u) :
    getUserL l uid now = (u, l) := by
  unfold getUserL
  rw [h]

theorem getUserL_of_lookup_none {l : List (String × UserAccount)} {uid : String}
    (now : String) (h : l.lookup uid = none) :
    getUserL l uid now = (mkUser now, l ++ [(uid, mkUser now)]) := by
  unfold getUserL
  rw [h]

theorem lookup_setUser_self : ∀ (l : List (String × UserAccount)) (uid : String)
    (u : UserAccount), (setUser l uid u).lookup uid = some u := by
  intro l
  induction l with
  | nil => intro uid u; simp [setUser, List.lookup]
  | cons p rest ih =>
    intro uid u
    obtain ⟨k, v⟩ := p
    simp only [setUser]
    by_cases hk : k = uid
    · subst hk
      simp [List.lookup]
    · rw [if_neg hk]
      rw [List.lookup]
      have hne : (uid == k) = false := by
        simp only [beq_eq_false_iff_ne, ne_eq]
        exact fun he => hk he.symm
      rw [hne]
      exact ih uid u

theorem lookup_setUser_ne : ∀ (l : List (String × UserAccount)) (uid k : String)
    (u : UserAccount), k ≠ uid → (setUser l uid u).lookup k = l.lookup k := by
  intro l
  induction l with
  | nil =>
    intro uid k u hk
    simp only [setUser, List.lookup]
    have : (k == uid) = false := by simpa [beq_eq_false_iff_ne] using hk
    rw [this]
  | cons p rest ih =>
    intro uid k u hk
    obtain ⟨k0, v⟩ := p
    simp only [setUser]
    by_cases h0 : k0 = uid
    · subst h0
      rw [if_pos rfl]
      rw [List.lookup, List.lookup]
      have hne : (k == k0) = false := by simpa [beq_eq_false_iff_ne] using hk
      rw [hne]
    · rw [if_neg h0]
      rw [List.lookup, List.lookup]
      by_cases hkk : k == k0
      · rw [hkk]
      · rw [Bool.not_eq_true] at hkk
        rw [hkk]
        exact ih uid k u hk

theorem mem_setUserProp : ∀ (l : List (String × UserAccount)) (uid : String)
    (u : UserAccount) (p : String × UserAccount),
    p ∈ setUser l uid u → p.2 = u ∨ p ∈ l := by
  intro l
  induction l with
  | nil =>
    intro uid u p hp
    simp only [setUser, List.mem_singleton] at hp
    subst hp
    exact Or.inl rfl
  | cons q rest ih =>
    intro uid u p hp
    obtain ⟨k, v⟩ := q
    simp only [setUser] at hp
    by_cases hk : k = uid
    · rw [if_pos hk] at hp
      rcases List.mem_cons.mp hp with h | h
      · subst h; exact Or.inl rfl
      · exact Or.inr (List.mem_cons_of_mem _ h)
    · rw [if_neg hk] at hp
      rcases List.mem_cons.mp hp with h | h
      · subst h; exact Or.inr (List.mem_cons_self _ _)
      · rcases ih uid u p h with h2 | h2
        · exact Or.inl h2
        · exact Or.inr (List.mem_cons_of_mem _ h2)

theorem find?_updateFirst : ∀ {l : List Order} {orderId : String} {o : Order}
    (f : Order → Order),
    l.find? (fun x => x.id == orderId) = some o → (f o).id = o.id →
    (updateFirst l orderId f).find? (fun x => x.id == orderId) = some (f o) := by
  intro l
  induction l with
  | nil => intro orderId o f h _; simp [List.find?] at h
  | cons a rest ih =>
    intro orderId o f h hid
    rw [List.find?] at h
    by_cases ha : a.id == orderId
    · rw [ha] at h
      simp only [Option.some.injEq] at h
      subst h
      simp only [updateFirst]
      rw [if_pos (beq_iff_eq.mp ha)]
      rw [List.find?]
      have hfa : ((f a).id == orderId) = true := by
        rw [hid]; exact ha
      rw [hfa]
    · rw [Bool.not_eq_true] at ha
      rw [ha] at h
      simp only [updateFirst]
      have hane : ¬ a.id = orderId := by
        intro he
        rw [he] at ha
        simp at ha
      rw [if_neg hane]
      rw [List.find?]
      rw [ha]
      exact ih f h hid

theorem find?_append_fresh {l : List Order} {orderId : String} (o : Order)
    (h : ∀ x ∈ l, x.id ≠ orderId) (ho : o.id = orderId) :
    (l ++ [o]).find? (fun x => x.id == orderId) = some o := by
  induction l with
  | nil =>
    simp only [List.nil_append, List.find?]
    rw [show (o.id == orderId) = true from beq_iff_eq.mpr ho]
  | cons a rest ih =>
    rw [List.cons_append, List.find?]
    have ha : (a.id == orderId) = false :=
      beq_eq_false_iff_ne.mpr (h a (List.mem_cons_self _ _))
    rw [ha]
    exact ih fun x hx => h x (List.mem_cons_of_mem _ hx)

theorem notSuccess_of_transport {a : ApiOutcome}
    (h : isTransportFailure a = true) : isSuccess a = false := by
  cases a <;> simp [isSuccess, isTransportFailure] at h ⊢

/-! ### Unfolding lemmas for the retry loops -/

theorem send_loop_fail_3 (env : Nat → ApiOutcome) (idx a s : Nat)
    (h : isSuccess (env idx) = false) :
    send_loop env 3 idx a s = send_loop env 2 (idx + 1) (a + 1) (s + 1) := by
  show send_loop env (2 + 1) idx a s = _
  cases henv : env idx
  case success oid => rw [henv] at h; simp [isSuccess] at h
  all_goals simp [send_loop, henv]

theorem send_loop_fail_2 (env : Nat → ApiOutcome) (idx a s : Nat)
    (h : isSuccess (env idx) = false) :
    send_loop env 2 idx a s = send_loop env 1 (idx + 1) (a + 1) (s + 1) := by
  show send_loop env (1 + 1) idx a s = _
  cases henv : env idx
  case success oid => rw [henv] at h; simp [isSuccess] at h
  all_goals simp [send_loop, henv]

theorem send_loop_fail_1 (env : Nat → ApiOutcome) (idx a s : Nat)
    (h : isSuccess (env idx) = false) :
    send_loop env 1 idx a s = ((false, attempt_error_text (env idx)), a + 1, s) := by
  show send_loop env (0 + 1) idx a s = _
  cases henv : env idx
  case success oid => rw [henv] at h; simp [isSuccess] at h
  all_goals simp [send_loop, henv, attempt_error_text]

theorem send_loop_success_first (env : Nat → ApiOutcome) (idx a s : Nat) (oid : String)
    (h : env idx = .success oid) :
    send_loop env 3 idx a s = ((true, oid), a + 1, s) := by
  show send_loop env (2 + 1) idx a s = _
  simp [send_loop, h]

theorem send_fail3 (env : Nat → ApiOutcome) (idx : Nat)
    (h0 : isSuccess (env idx) = false)
    (h1 : isSuccess (env (idx + 1)) = false)
    (h2 : isSuccess (env (idx + 1 + 1)) = false) :
    send_view_order_to_api env idx =
      ((false, attempt_error_text (env (idx + 1 + 1))), 3, 2) := by
  unfold send_view_order_to_api API_RETRIES
  rw [send_loop_fail_3 env idx 0 0 h0]
  rw [send_loop_fail_2 env (idx + 1) (0 + 1) (0 + 1) h1]
  rw [send_loop_fail_1 env (idx + 1 + 1) (0 + 1 + 1) (0 + 1 + 1) h2]

theorem send_success_first (env : Nat → ApiOutcome) (idx : Nat) (oid : String)
    (h : env idx = .success oid) :
    send_view_order_to_api env idx = ((true, oid), 1, 0) := by
  unfold send_view_order_to_api API_RETRIES
  rw [send_loop_success_first env idx 0 0 oid h]

theorem process_retry_fail_3 (env : Nat → ApiOutcome) (idx a s : Nat)
    (h : (send_view_order_to_api env idx).1.1 = false) :
    process_retry env 3 idx a s =
      process_retry env 2 (idx + (send_view_order_to_api env idx).2.1)
        (a + (send_view_order_to_api env idx).2.1)
        (s + (send_view_order_to_api env idx).2.2 + 1) := by
  show process_retry env (2 + 1) idx a s = _
  simp [process_retry, h]

theorem process_retry_fail_2 (env : Nat → ApiOutcome) (idx a s : Nat)
    (h : (send_view_order_to_api env idx).1.1 = false) :
    process_retry env 2 idx a s =
      process_retry env 1 (idx + (send_view_order_to_api env idx).2.1)
        (a + (send_view_order_to_api env idx).2.1)
        (s + (send_view_order_to_api env idx).2.2 + 1) := by
  show process_retry env (1 + 1) idx a s = _
  simp [process_retry, h]

theorem process_retry_fail_1 (env : Nat → ApiOutcome) (idx a s : Nat)
    (h : (send_view_order_to_api env idx).1.1 = false) :
    process_retry env 1 idx a s =
      ((false, (send_view_order_to_api env idx).1.2),
       a + (send_view_order_to_api env idx).2.1,
       s + (send_view_order_to_api env idx).2.2) := by
  show process_retry env (0 + 1) idx a s = _
  simp [process_retry, h]

theorem process_retry_success_3 (env : Nat → ApiOutcome) (idx a s : Nat)
    (h : (send_view_order_to_api env idx).1.1 = true) :
    process_retry env 3 idx a s =
      ((true, (send_view_order_to_api env idx).1.2),
       a + (send_view_order_to_api env idx).2.1,
       s + (send_view_order_to_api env idx).2.2) := by
  show process_retry env (2 + 1) idx a s = _
  simp [process_retry, h]

theorem process_retry_all_fail (env : Nat → ApiOutcome)
    (h : ∀ n, isSuccess (env n) = false) :
    process_retry env 3 0 0 0 = ((false, attempt_error_text (env 8)), 9, 8) := by
  have s0 := send_fail3 env 0 (h 0) (h (0 + 1)) (h (0 + 1 + 1))
  have s1 := send_fail3 env 3 (h 3) (h (3 + 1)) (h (3 + 1 + 1))
  have s2 := send_fail3 env 6 (h 6) (h (6 + 1)) (h (6 + 1 + 1))
  rw [process_retry_fail_3 env 0 0 0 (by rw [s0])]
  rw [s0]
  norm_num
  rw [process_retry_fail_2 env 3 3 3 (by rw [s1])]
  rw [s1]
  norm_num
  rw [process_retry_fail_1 env 6 6 6 (by rw [s2])]
  rw [s2]
  norm_num

theorem process_retry_success_at_0 (env : Nat → ApiOutcome) (oid : String)
    (h : env 0 = .success oid) :
    process_retry env 3 0 0 0 = ((true, oid), 1, 0) := by
  have s0 := send_success_first env 0 oid h
  rw [process_retry_success_3 env 0 0 0 (by rw [s0])]
  rw [s0]
  norm_num

theorem confirm_order_sufficient (s : BotState) (uid : String) (q : Quote)
    (orderId now : String) (u : UserAccount)
    (hu : s.users.lookup uid = some u)
    (hge : (q.price : Int) ≤ u.coins) :
    confirm_order s uid q orderId now =
      ({ users := setUser s.users uid { u with coins := u.coins - (q.price : Int) },
         orders := s.orders ++ [mkOrder orderId uid q now],
         timers := s.timers }, .created orderId) := by
  unfold confirm_order
  rw [getUserL_of_lookup now hu]
  dsimp only
  rw [if_neg (not_lt.mpr hge)]

theorem cancel_cmd_rejected_nonpending (s : BotState) (orderId now : String) (o : Order)
    (hfind : s.orders.find? (fun x => x.id == orderId) = some o)
    (hst : o.status ≠ "pending") :
    cancel_order s o.userId orderId now = (s, .wrongStatus o.status) := by
  unfold cancel_order
  rw [hfind]
  dsimp only
  rw [if_neg (fun h => h rfl), if_pos hst]

theorem cancel_cb_rejected_nonpending (s : BotState) (orderId now : String) (o : Order)
    (hfind : s.orders.find? (fun x => x.id == orderId) = some o)
    (hst : o.status ≠ "pending") :
    cancel_order_callback s o.userId orderId now = (s, .wrongStatus o.status) := by
  unfold cancel_order_callback
  rw [hfind]
  dsimp only
  rw [if_neg (fun h => h rfl), if_pos hst]

theorem cancel_cmd_pending (s : BotState) (orderId now : String) (o : Order) (u : UserAccount)
    (hfind : s.orders.find? (fun x => x.id == orderId) = some o)
    (hu : s.users.lookup o.userId = some u)
    (hp : o.status = "pending") :
    cancel_order s o.userId orderId now =
      ({ users := setUser s.users o.userId { u with coins := u.coins + (o.price : Int) },
         orders := updateFirst s.orders orderId (fun x =>
           { x with status := "cancelled", cancelledAt := some now,
                    cancelledBy := some o.userId }),
         timers := s.timers.filter (fun t => t != orderId) }, .cancelled o.price) := by
  unfold cancel_order
  rw [hfind]
  dsimp only
  rw [if_neg (fun h => h rfl), if_neg (fun h => h hp)]
  rw [getUserL_of_lookup now hu]

theorem cancel_cb_pending (s : BotState) (orderId now : String) (o : Order) (u : UserAccount)
    (hfind : s.orders.find? (fun x => x.id == orderId) = some o)
    (hu : s.users.lookup o.userId = some u)
    (hp : o.status = "pending") :
    cancel_order_callback s o.userId orderId now =
      ({ users := setUser s.users o.userId { u with coins := u.coins + (o.price : Int) },
         orders := updateFirst s.orders orderId (fun x => { x with status := "cancelled" }),
         timers := s.timers.filter (fun t => t != orderId) }, .cancelled o.price) := by
  unfold cancel_order_callback
  rw [hfind]
  dsimp only
  rw [if_neg (fun h => h rfl), if_neg (fun h => h hp)]
  rw [getUserL_of_lookup now hu]

/-- C8: For every valid quantity q in [100, 100000], the pricing
function returns max(10, q) coins — one coin per view floored at a
minimum charge of 10 coins. -/
theorem C8_price_is_max_ten_quantity (q : Nat) (h1 : 100 ≤ q) (h2 : q ≤ 100000) :
    calculate_view_price q = max 10 q ∧ calculate_view_price q = q := by
  refine ⟨rfl, ?_⟩
  unfold calculate_view_price
  omega

theorem C8_price_is_max_ten_quantity_witness :
    calculate_view_price 500 = max 10 500 ∧ calculate_view_price 500 = 500 :=
  C8_price_is_max_ten_quantity 500 (by decide) (by decide)

/-- C7: For quantities in [100, 100000], the slow plan uses
batch_size = clamp(q // 10, 100, 1000), runs = max(1, q // batch_size)
and a 30-minute interval (so q = 10000 gives batch 1000, 10 runs), and
a drip plan with parameters (d, i, b) uses runs = max(1, q // b),
interval i, start delay d (so q = 350 with b = 100 gives 3 runs). -/
theorem C7_delivery_plans (q d i b : Nat) (h1 : 100 ≤ q) (h2 : q ≤ 100000) :
    slow_batch_size q = clampSpec (q / 10) 100 1000 ∧
    (slow_plan q).apiRuns = some (max 1 (q / clampSpec (q / 10) 100 1000)) ∧
    (slow_plan q).apiInterval = some 30 ∧
    (slow_plan q).startDelay = 0 ∧
    slow_batch_size 10000 = 1000 ∧
    (slow_plan 10000).apiRuns = some 10 ∧
    (slow_plan 10000).apiInterval = some 30 ∧
    (drip_plan d i b q).apiRuns = some (max 1 (q / b)) ∧
    (drip_plan d i b q).apiInterval = some i ∧
    (drip_plan d i b q).startDelay = d ∧
    (drip_plan 1 3 100 350).apiRuns = some 3 := by
  refine ⟨rfl, rfl, rfl, rfl, by decide, by decide, by decide, rfl, rfl, rfl, by decide⟩

theorem C7_delivery_plans_witness :
    slow_batch_size 10000 = clampSpec (10000 / 10) 100 1000 ∧
    (slow_plan 10000).apiRuns = some 10 ∧
    (drip_plan 1 3 100 350).apiRuns = some 3 := by
  have h := C7_delivery_plans 10000 1 3 100 (by decide) (by decide)
  exact ⟨h.1, h.2.2.2.2.2.1, h.2.2.2.2.2.2.2.2.2.2⟩

/-- C2: For every user whose coin balance is strictly less than the
quoted price, the order-creation step fails reporting the required
amount versus the balance, no coins are debited, and the stored list of
orders is unchanged — no order record is appended. -/
theorem C2_insufficient_funds_rejected (s : BotState) (uid : String) (q : Quote)
    (orderId now : String) (u : UserAccount)
    (hu : s.users.lookup uid = some u)
    (hlt : u.coins < (q.price : Int)) :
    confirm_order s uid q orderId now = (s, .insufficient q.price u.coins) := by
  unfold confirm_order
  rw [getUserL_of_lookup now hu]
  dsimp only
  rw [if_pos hlt]

/-- C3: For every user whose coin balance is at least the quoted price,
confirming the order debits exactly the price from that user's balance
and appends exactly one new order record in status "pending" to the
stored orders; no other order record is modified and no other user's
balance changes. -/
theorem C3_create_debits_and_appends (s : BotState) (uid : String) (q : Quote)
    (orderId now : String) (u : UserAccount)
    (hu : s.users.lookup uid = some u)
    (hge : (q.price : Int) ≤ u.coins) :
    confirm_order s uid q orderId now =
      ({ users := setUser s.users uid { u with coins := u.coins - (q.price : Int) },
         orders := s.orders ++ [mkOrder orderId uid q now],
         timers := s.timers }, .created orderId) ∧
    (mkOrder orderId uid q now).status = "pending" ∧
    (mkOrder orderId uid q now).price = q.price ∧
    (setUser s.users uid { u with coins := u.coins - (q.price : Int) }).lookup uid =
      some { u with coins := u.coins - (q.price : Int) } ∧
    (∀ k, k ≠ uid →
      (setUser s.users uid { u with coins := u.coins - (q.price : Int) }).lookup k =
        s.users.lookup k) := by
  exact ⟨confirm_order_sufficient s uid q orderId now u hu hge, rfl, rfl,
         lookup_setUser_self _ _ _, fun k hk => lookup_setUser_ne _ _ _ _ hk⟩

/-- C10: For every cancel request in which the requesting user's id
differs from the order's user_id, the request is rejected before any
state change, for both the `/cancel_<id>` command path and the
inline-button callback path. -/
theorem C10_foreign_cancel_rejected (s : BotState) (callerId orderId now : String)
    (o : Order)
    (hfind : s.orders.find? (fun x => x.id == orderId) = some o)
    (hne : callerId ≠ o.userId) :
    cancel_order s callerId orderId now = (s, .notOwner) ∧
    cancel_order_callback s callerId orderId now = (s, .notOwner) := by
  constructor
  · unfold cancel_order
    rw [hfind]
    dsimp only
    rw [if_pos hne]
  · unfold cancel_order_callback
    rw [hfind]
    dsimp only
    rw [if_pos hne]

/-- C1: Cancelling a pending order by its owner (on either path) sets
its status to "cancelled" and refunds exactly the order's price to the
owner exactly once; a subsequent cancel attempt on the same order, and
any cancel attempt on a non-pending order, is rejected on both paths
and changes neither the orders, nor the balances, nor the timers. -/
theorem C1_cancel_refund_once (s : BotState) (orderId now now2 : String) (o : Order)
    (u : UserAccount)
    (hfind : s.orders.find? (fun x => x.id == orderId) = some o)
    (hu : s.users.lookup o.userId = some u) :
    (o.status = "pending" →
      (cancel_order s o.userId orderId now).2 = CancelResult.cancelled o.price ∧
      (cancel_order s o.userId orderId now).1.orders.find? (fun x => x.id == orderId) =
        some { o with status := "cancelled", cancelledAt := some now,
                      cancelledBy := some o.userId } ∧
      (cancel_order s o.userId orderId now).1.users.lookup o.userId =
        some { u with coins := u.coins + (o.price : Int) } ∧
      (∀ k, k ≠ o.userId →
        (cancel_order s o.userId orderId now).1.users.lookup k = s.users.lookup k) ∧
      cancel_order (cancel_order s o.userId orderId now).1 o.userId orderId now2 =
        ((cancel_order s o.userId orderId now).1, CancelResult.wrongStatus "cancelled") ∧
      cancel_order_callback (cancel_order s o.userId orderId now).1 o.userId orderId now2 =
        ((cancel_order s o.userId orderId now).1, CancelResult.wrongStatus "cancelled") ∧
      (cancel_order_callback s o.userId orderId now).2 = CancelResult.cancelled o.price ∧
      (cancel_order_callback s o.userId orderId now).1.orders.find?
          (fun x => x.id == orderId) = some { o with status := "cancelled" } ∧
      (cancel_order_callback s o.userId orderId now).1.users.lookup o.userId =
        some { u with coins := u.coins + (o.price : Int) } ∧
      cancel_order (cancel_order_callback s o.userId orderId now).1 o.userId orderId now2 =
        ((cancel_order_callback s o.userId orderId now).1,
         CancelResult.wrongStatus "cancelled") ∧
      cancel_order_callback (cancel_order_callback s o.userId orderId now).1
          o.userId orderId now2 =
        ((cancel_order_callback s o.userId orderId now).1,
         CancelResult.wrongStatus "cancelled")) ∧
    (o.status ≠ "pending" →
      cancel_order s o.userId orderId now = (s, CancelResult.wrongStatus o.status) ∧
      cancel_order_callback s o.userId orderId now = (s, CancelResult.wrongStatus o.status)) := by
  constructor
  · intro hp
    have hcmd := cancel_cmd_pending s orderId now o u hfind hu hp
    have hcb := cancel_cb_pending s orderId now o u hfind hu hp
    have hfind1 : (cancel_order s o.userId orderId now).1.orders.find?
        (fun x => x.id == orderId) =
        some { o with status := "cancelled", cancelledAt := some now,
                      cancelledBy := some o.userId } := by
      rw [hcmd]
      exact find?_updateFirst _ hfind rfl
    have hfind2 : (cancel_order_callback s o.userId orderId now).1.orders.find?
        (fun x => x.id == orderId) = some { o with status := "cancelled" } := by
      rw [hcb]
      exact find?_updateFirst _ hfind rfl
    refine ⟨by rw [hcmd], hfind1, ?_, ?_, ?_, ?_, by rw [hcb], hfind2, ?_, ?_, ?_⟩
    · rw [hcmd]
      exact lookup_setUser_self _ _ _
    · intro k hk
      rw [hcmd]
      exact lookup_setUser_ne _ _ _ _ hk
    · exact cancel_cmd_rejected_nonpending _ orderId now2 _ hfind1 (show ("cancelled" : String) ≠ "pending" by decide)
    · exact cancel_cb_rejected_nonpending _ orderId now2 _ hfind1 (show ("cancelled" : String) ≠ "pending" by decide)
    · rw [hcb]
      exact lookup_setUser_self _ _ _
    · exact cancel_cmd_rejected_nonpending _ orderId now2 _ hfind2 (show ("cancelled" : String) ≠ "pending" by decide)
    · exact cancel_cb_rejected_nonpending _ orderId now2 _ hfind2 (show ("cancelled" : String) ≠ "pending" by decide)
  · intro hst
    exact ⟨cancel_cmd_rejected_nonpending s orderId now o hfind hst,
           cancel_cb_rejected_nonpending s orderId now o hfind hst⟩

/-- C5: Invoking either dispatch operation (`process_order_to_api` or
the timer-fired `process_delayed_order`) on an order whose status is
not "pending" is a no-op: no HTTP attempt is made (the attempt count is
0) and the state — orders, balances and timers — is unchanged. -/
theorem C5_dispatch_nonpending_noop (s : BotState) (orderId now : String)
    (env : Nat → ApiOutcome) (o : Order)
    (hfind : s.orders.find? (fun x => x.id == orderId) = some o)
    (hst : o.status ≠ "pending") :
    process_order_to_api s orderId env now = (s, .notPending o.status, 0, 0) ∧
    process_delayed_order s orderId env now = (s, .notPending o.status, 0, 0) := by
  constructor
  · unfold process_order_to_api
    rw [hfind]
    dsimp only
    rw [if_pos hst]
  · unfold process_delayed_order
    rw [hfind]
    dsimp only
    rw [if_pos hst]

/-- C4 counterexample: on a pending order with every HTTP attempt
failing at the transport level (all timeouts), the submission path
performs 9 HTTP attempts, not 3 as the claim states: the inner
`send_view_order_to_api` loop retries 3 times per call and the outer
`process_order_to_api` loop calls it 3 times.  The recorded error is
the fixed string "API request timed out after multiple attempts", not
the transport's own error message. -/
theorem C4_counterexample :
    (process_order_to_api wState "ORD_W1" (fun _ => ApiOutcome.timeout) "t1").2.2.1 = 9 ∧
    ¬ (process_order_to_api wState "ORD_W1" (fun _ => ApiOutcome.timeout) "t1").2.2.1 = 3 ∧
    (process_order_to_api wState "ORD_W1" (fun _ => ApiOutcome.timeout) "t1").2.1 =
      DispatchResult.failed "API request timed out after multiple attempts" := by
  decide

/-- C4 (amended): When every HTTP attempt fails at the transport level,
dispatching a pending order performs exactly 9 HTTP attempts in total
(3 calls of the client, each making 3 attempts) with a 5-second sleep
between consecutive attempts (8 sleeps), and then marks the order
"failed" with the error field holding the client's final error string
for the last (9th) attempt: the exception text verbatim for generic
exceptions, but a fixed generic message for timeouts and connection
errors. -/
theorem C4_amended_nine_attempts (s : BotState) (orderId now : String) (o : Order)
    (env : Nat → ApiOutcome)
    (hfind : s.orders.find? (fun x => x.id == orderId) = some o)
    (hp : o.status = "pending")
    (henv : ∀ n, isTransportFailure (env n) = true) :
    (process_order_to_api s orderId env now).2.2.1 = 9 ∧
    (process_order_to_api s orderId env now).2.2.2 = 8 ∧
    (process_order_to_api s orderId env now).2.1 =
      DispatchResult.failed (attempt_error_text (env 8)) ∧
    (process_order_to_api s orderId env now).1.orders.find? (fun x => x.id == orderId) =
      some (markFailed (attempt_error_text (env 8)) now (markProcessing now o)) ∧
    (markFailed (attempt_error_text (env 8)) now (markProcessing now o)).status =
      "failed" ∧
    (markFailed (attempt_error_text (env 8)) now (markProcessing now o)).error =
      some (attempt_error_text (env 8)) := by
  have hfail : ∀ n, isSuccess (env n) = false := fun n => notSuccess_of_transport (henv n)
  have hr := process_retry_all_fail env hfail
  have heq : process_order_to_api s orderId env now =
      ({ s with orders := updateFirst (updateFirst s.orders orderId (markProcessing now)) orderId (markFailed (attempt_error_text (env 8)) now) },
       DispatchResult.failed (attempt_error_text (env 8)), 9, 8) := by
    unfold process_order_to_api max_retries
    rw [hfind]
    dsimp only
    rw [if_neg (fun hh => hh hp)]
    rw [hr]
    rfl
  refine ⟨by rw [heq], by rw [heq], by rw [heq], ?_, rfl, rfl⟩
  rw [heq]
  dsimp only
  have h1 := find?_updateFirst (markProcessing now) hfind rfl
  exact find?_updateFirst (markFailed (attempt_error_text (env 8)) now) h1 rfl

/-- C9: When a user with sufficient balance confirms an immediate-speed
order and the first external attempt returns an order identifier, the
stored order ends with `api_order_id` set to that identifier, status
"processing" (not "completed") and no error recorded, and the user's
balance equals the prior balance minus the price. -/
theorem C9_immediate_dispatch_success (s : BotState) (uid : String) (q : Quote)
    (orderId now : String) (env : Nat → ApiOutcome) (ext : String) (u : UserAccount)
    (hu : s.users.lookup uid = some u)
    (hge : (q.price : Int) ≤ u.coins)
    (hfresh : ∀ x ∈ s.orders, x.id ≠ orderId)
    (hdelay : q.plan.startDelay = 0)
    (henv : env 0 = ApiOutcome.success ext) :
    (handle_speed_selection_confirm s uid q orderId now env).2 =
      CreateResult.created orderId ∧
    (handle_speed_selection_confirm s uid q orderId now env).1.orders.find?
        (fun x => x.id == orderId) =
      some (markSubmitted ext now (markProcessing now (mkOrder orderId uid q now))) ∧
    (markSubmitted ext now (markProcessing now (mkOrder orderId uid q now))).status =
      "processing" ∧
    (markSubmitted ext now (markProcessing now (mkOrder orderId uid q now))).status ≠
      "completed" ∧
    (markSubmitted ext now (markProcessing now (mkOrder orderId uid q now))).apiOrderId =
      some ext ∧
    (markSubmitted ext now (markProcessing now (mkOrder orderId uid q now))).error =
      none ∧
    (handle_speed_selection_confirm s uid q orderId now env).1.users.lookup uid =
      some { u with coins := u.coins - (q.price : Int) } := by
  have hc := confirm_order_sufficient s uid q orderId now u hu hge
  have hfind1 : ((s.orders ++ [mkOrder orderId uid q now]).find?
      (fun x => x.id == orderId)) = some (mkOrder orderId uid q now) :=
    find?_append_fresh _ hfresh rfl
  have hr := process_retry_success_at_0 env ext henv
  have heqp : process_order_to_api
      ({ users := setUser s.users uid { u with coins := u.coins - (q.price : Int) },
         orders := s.orders ++ [mkOrder orderId uid q now],
         timers := s.timers } : BotState) orderId env now =
      ({ users := setUser s.users uid { u with coins := u.coins - (q.price : Int) },
         orders := updateFirst (updateFirst (s.orders ++ [mkOrder orderId uid q now]) orderId (markProcessing now)) orderId (markSubmitted ext now),
         timers := s.timers }, DispatchResult.submitted ext, 1, 0) := by
    unfold process_order_to_api max_retries
    dsimp only
    rw [hfind1]
    dsimp only
    rw [if_neg (fun hh => hh rfl)]
    rw [hr]
    rfl
  have hmain : handle_speed_selection_confirm s uid q orderId now env =
      ({ users := setUser s.users uid { u with coins := u.coins - (q.price : Int) },
         orders := updateFirst (updateFirst (s.orders ++ [mkOrder orderId uid q now]) orderId (markProcessing now)) orderId (markSubmitted ext now),
         timers := s.timers }, CreateResult.created orderId) := by
    unfold handle_speed_selection_confirm
    rw [hc]
    dsimp only
    rw [hdelay]
    simp only [gt_iff_lt, lt_irrefl, if_false]
    rw [heqp]
  have h1 := find?_updateFirst (markProcessing now) hfind1 rfl
  have h2 := find?_updateFirst (markSubmitted ext now) h1 rfl
  refine ⟨by rw [hmain], ?_, rfl,
          (show ("processing" : String) ≠ "completed" by decide), rfl, rfl, ?_⟩
  · rw [hmain]
    exact h2
  · rw [hmain]
    dsimp only
    exact lookup_setUser_self _ _ _

/-! ### Non-negativity of balances (C6) -/

theorem usersNonneg_getUserL_snd {l : List (String × UserAccount)} {uid now : String}
    (h : ∀ p ∈ l, 0 ≤ p.2.coins) :
    ∀ p ∈ (getUserL l uid now).2, 0 ≤ p.2.coins := by
  cases hl : l.lookup uid with
  | none =>
    rw [getUserL_of_lookup_none now hl]
    intro p hp
    rcases List.mem_append.mp hp with h1 | h1
    · exact h p h1
    · have hpe : p = (uid, mkUser now) := List.mem_singleton.mp h1
      rw [hpe]
      exact le_refl 0
  | some u =>
    rw [getUserL_of_lookup now hl]
    exact h

theorem usersNonneg_getUserL_fst {l : List (String × UserAccount)} {uid now : String}
    (h : ∀ p ∈ l, 0 ≤ p.2.coins) :
    0 ≤ (getUserL l uid now).1.coins := by
  cases hl : l.lookup uid with
  | none =>
    rw [getUserL_of_lookup_none now hl]
    exact le_refl 0
  | some u =>
    rw [getUserL_of_lookup now hl]
    exact h _ (lookup_mem hl)

theorem usersNonneg_setUser {l : List (String × UserAccount)} {uid : String}
    {u : UserAccount} (h : ∀ p ∈ l, 0 ≤ p.2.coins) (hu : 0 ≤ u.coins) :
    ∀ p ∈ setUser l uid u, 0 ≤ p.2.coins := by
  intro p hp
  rcases mem_setUserProp l uid u p hp with h1 | h1
  · rw [h1]
    exact hu
  · exact h p h1

theorem confirm_order_preserves_nonneg (s : BotState) (uid : String) (q : Quote)
    (orderId now : String) (h : UsersNonneg s) :
    UsersNonneg (confirm_order s uid q orderId now).1 := by
  unfold confirm_order UsersNonneg
  dsimp only
  split
  · exact usersNonneg_getUserL_snd h
  · next hcond =>
    exact usersNonneg_setUser (usersNonneg_getUserL_snd h) (sub_nonneg.mpr (not_lt.mp hcond))

theorem cancel_order_preserves_nonneg (s : BotState) (callerId orderId now : String)
    (h : UsersNonneg s) :
    UsersNonneg (cancel_order s callerId orderId now).1 := by
  unfold cancel_order UsersNonneg
  cases hf : s.orders.find? (fun o => o.id == orderId) with
  | none => exact h
  | some order =>
    dsimp only
    split
    · exact h
    · split
      · exact h
      · dsimp only
        exact usersNonneg_setUser (usersNonneg_getUserL_snd h)
          (add_nonneg (usersNonneg_getUserL_fst h) (Int.natCast_nonneg _))

theorem cancel_cb_preserves_nonneg (s : BotState) (callerId orderId now : String)
    (h : UsersNonneg s) :
    UsersNonneg (cancel_order_callback s callerId orderId now).1 := by
  unfold cancel_order_callback UsersNonneg
  cases hf : s.orders.find? (fun o => o.id == orderId) with
  | none => exact h
  | some order =>
    dsimp only
    split
    · exact h
    · split
      · exact h
      · dsimp only
        exact usersNonneg_setUser (usersNonneg_getUserL_snd h)
          (add_nonneg (usersNonneg_getUserL_fst h) (Int.natCast_nonneg _))

theorem admin_add_preserves_nonneg (s : BotState) (targetId : String) (coins : Int)
    (now : String) (h : UsersNonneg s) :
    UsersNonneg (admin_add_coins_to_user s targetId coins now).1 := by
  unfold admin_add_coins_to_user UsersNonneg
  split
  · exact h
  · next hpos =>
    dsimp only
    exact usersNonneg_setUser (usersNonneg_getUserL_snd h)
      (add_nonneg (usersNonneg_getUserL_fst h) (le_of_lt (not_le.mp hpos)))

theorem process_order_users_eq (s : BotState) (orderId : String) (env : Nat → ApiOutcome)
    (now : String) :
    (process_order_to_api s orderId env now).1.users = s.users := by
  unfold process_order_to_api
  cases hf : s.orders.find? (fun o => o.id == orderId) with
  | none => rfl
  | some order =>
    dsimp only
    split
    · rfl
    · split
      · rfl
      · rfl

theorem process_delayed_users_eq (s : BotState) (orderId : String) (env : Nat → ApiOutcome)
    (now : String) :
    (process_delayed_order s orderId env now).1.users = s.users := by
  unfold process_delayed_order
  cases hf : s.orders.find? (fun o => o.id == orderId) with
  | none => rfl
  | some order =>
    dsimp only
    split
    · rfl
    · split
      · rfl
      · rfl

theorem speed_confirm_users_eq (s : BotState) (uid : String) (q : Quote)
    (orderId now : String) (env : Nat → ApiOutcome) :
    (handle_speed_selection_confirm s uid q orderId now env).1.users =
      (confirm_order s uid q orderId now).1.users := by
  unfold handle_speed_selection_confirm
  dsimp only
  cases hr : (confirm_order s uid q orderId now).2 with
  | insufficient n b => rfl
  | created oid =>
    dsimp only
    split
    · rfl
    · rw [process_order_users_eq]

theorem applyOp_preserves_nonneg (s : BotState) (op : Op) (h : UsersNonneg s) :
    UsersNonneg (applyOp s op) := by
  cases op with
  | confirm uid q oid now => exact confirm_order_preserves_nonneg s uid q oid now h
  | speedConfirm uid q oid now env =>
    unfold applyOp UsersNonneg
    rw [speed_confirm_users_eq]
    exact confirm_order_preserves_nonneg s uid q oid now h
  | cancelCmd uid oid now => exact cancel_order_preserves_nonneg s uid oid now h
  | cancelCb uid oid now => exact cancel_cb_preserves_nonneg s uid oid now h
  | grant uid amt now => exact admin_add_preserves_nonneg s uid amt now h
  | dispatch oid now env =>
    unfold applyOp UsersNonneg
    rw [process_order_users_eq]
    exact h
  | dispatchDelayed oid now env =>
    unfold applyOp UsersNonneg
    rw [process_delayed_users_eq]
    exact h

theorem applyOps_preserves_nonneg (ops : List Op) :
    ∀ s : BotState, UsersNonneg s → UsersNonneg (applyOps s ops) := by
  induction ops with
  | nil => intro s h; exact h
  | cons op rest ih =>
    intro s h
    exact ih _ (applyOp_preserves_nonneg s op h)

/-- C6: Every stored coin balance is non-negative after every balance
mutation: the purchase debit only subtracts after the sufficient-balance
check passed, the cancellation refund adds the (non-negative) order
price, and the admin grant adds a checked-positive amount; accounts are
created with 0 coins; hence `coins >= 0` holds in the initial state and
is preserved by every reachable sequence of operations. -/
theorem C6_coins_nonneg_invariant (s : BotState) (ops : List Op) :
    UsersNonneg initialState ∧ (UsersNonneg s → UsersNonneg (applyOps s ops)) := by
  constructor
  · intro p hp
    simp [initialState] at hp
  · intro h
    exact applyOps_preserves_nonneg ops s h

theorem C6_coins_nonneg_invariant_witness :
    UsersNonneg (applyOps wState
      [Op.grant "U1" 250 "t1", Op.confirm "U1" wQuote "ORD_W2" "t2",
       Op.cancelCmd "U1" "ORD_W2" "t3"]) :=
  (C6_coins_nonneg_invariant wState
    [Op.grant "U1" 250 "t1", Op.confirm "U1" wQuote "ORD_W2" "t2",
     Op.cancelCmd "U1" "ORD_W2" "t3"]).2 (by decide)

theorem C2_insufficient_funds_rejected_witness :
    confirm_order wState "U1" wQuoteBig "ORD_W9" "t9" =
      (wState, CreateResult.insufficient 2000 1000) :=
  C2_insufficient_funds_rejected wState "U1" wQuoteBig "ORD_W9" "t9" wUser
    (by decide) (by decide)

theorem C3_create_debits_and_appends_witness :
    confirm_order wState "U1" wQuote "ORD_W2" "t2" =
      ({ users := setUser wState.users "U1"
           { wUser with coins := wUser.coins - (wQuote.price : Int) },
         orders := wState.orders ++ [mkOrder "ORD_W2" "U1" wQuote "t2"],
         timers := wState.timers }, CreateResult.created "ORD_W2") :=
  (C3_create_debits_and_appends wState "U1" wQuote "ORD_W2" "t2" wUser
    (by decide) (by decide)).1

theorem C1_cancel_refund_once_witness :
    (cancel_order wState "U1" "ORD_W1" "t1").2 = CancelResult.cancelled 500 ∧
    cancel_order (cancel_order wState "U1" "ORD_W1" "t1").1 "U1" "ORD_W1" "t2" =
      ((cancel_order wState "U1" "ORD_W1" "t1").1, CancelResult.wrongStatus "cancelled") := by
  have h := (C1_cancel_refund_once wState "ORD_W1" "t1" "t2" wOrder wUser
    (by decide) (by decide)).1 (by decide)
  exact ⟨h.1, h.2.2.2.2.1⟩

theorem C5_dispatch_nonpending_noop_witness :
    process_order_to_api wStateDone "ORD_W3" (fun _ => ApiOutcome.timeout) "t1" =
      (wStateDone, DispatchResult.notPending "completed", 0, 0) ∧
    process_delayed_order wStateDone "ORD_W3" (fun _ => ApiOutcome.timeout) "t1" =
      (wStateDone, DispatchResult.notPending "completed", 0, 0) :=
  C5_dispatch_nonpending_noop wStateDone "ORD_W3" "t1" (fun _ => ApiOutcome.timeout)
    wOrderDone (by decide) (by decide)

theorem C4_amended_nine_attempts_witness :
    (process_order_to_api wState "ORD_W1" (fun _ => ApiOutcome.timeout) "t1").2.2.2 = 8 ∧
    (process_order_to_api wState "ORD_W1" (fun _ => ApiOutcome.timeout) "t1").2.1 =
      DispatchResult.failed "API request timed out after multiple attempts" := by
  have h := C4_amended_nine_attempts wState "ORD_W1" "t1" wOrder
    (fun _ => ApiOutcome.timeout) (by decide) (by decide) (fun n => rfl)
  exact ⟨h.2.1, h.2.2.1⟩

theorem C9_immediate_dispatch_success_witness :
    (handle_speed_selection_confirm wState "U1" wQuote "ORD_W2" "t2"
        (fun _ => ApiOutcome.success "EXT99")).2 = CreateResult.created "ORD_W2" ∧
    (handle_speed_selection_confirm wState "U1" wQuote "ORD_W2" "t2"
        (fun _ => ApiOutcome.success "EXT99")).1.users.lookup "U1" =
      some { wUser with coins := wUser.coins - (wQuote.price : Int) } := by
  have h := C9_immediate_dispatch_success wState "U1" wQuote "ORD_W2" "t2"
    (fun _ => ApiOutcome.success "EXT99") "EXT99" wUser (by decide) (by decide)
    (by decide) rfl rfl
  exact ⟨h.1, h.2.2.2.2.2.2⟩

theorem C10_foreign_cancel_rejected_witness :
    cancel_order wState "U2" "ORD_W1" "t1" = (wState, CancelResult.notOwner) ∧
    cancel_order_callback wState "U2" "ORD_W1" "t1" = (wState, CancelResult.notOwner) :=
  C10_foreign_cancel_rejected wState "U2" "ORD_W1" "t1" wOrder (by decide) (by decide)

end ViewsBot
